import Mathlib

/-!
Shallow embedding of the mopenstack Keystone core (identity and token
lifecycle): `services/keystone/auth.py`, `services/keystone/service.py`,
`services/keystone/router.py` and `bootstrap.py`.

Modelling conventions:
* Wall-clock instants and durations are integers counting seconds (python-jose
  truncates datetimes to whole seconds via `timegm(...utctimetuple())`).
* A JWT string is modelled symbolically as the pair (payload, signing key):
  `jwt.encode` is deterministic and injective on that pair, so equality of the
  `Jwt` structure models equality of the encoded strings, and a token "forged
  without the key" is a `Jwt` value whose `key` differs from the process key.
* A bcrypt hash is modelled symbolically as the hashed password; `verify`
  succeeds exactly on the original password.  Salting only makes distinct hash
  strings for the same password, which no verified property depends on.
* SQLAlchemy tables are Lean lists in insertion order; `query(...).first()` is
  `List.find?`; `uuid4` primary keys are drawn from a deterministic counter
  `nextId` carried by the store.
-/

namespace Mopenstack

/-- Python truthiness of an optional string: `None` and `""` are falsy. -/
def pyTruthy : Option String → Bool
  | none => false
  | some s => s ≠ ""

/-- Python's `str.lower()` (character-wise; the identifiers compared in this
code base are ASCII). -/
def pyLower (s : String) : String :=
  ⟨s.data.map Char.toLower⟩

/-- Python's `str.capitalize()`: first character uppercased, rest lowercased. -/
def pyCapitalize (s : String) : String :=
  match s.data with
  | [] => ⟨[]⟩
  | c :: cs => ⟨Char.toUpper c :: cs.map Char.toLower⟩

/-- Settings from `common/config.py` (defaults; no env overrides modelled). -/
structure Settings where
  secret_key : String
  admin_username : String
  admin_password : String
  admin_project : String
deriving Repr, DecidableEq

/-- The process-wide `settings` object of `common/config.py`. -/
def settings : Settings :=
  { secret_key := "mock-openstack-secret-key-change-in-production"
    admin_username := "admin"
    admin_password := "password"
    admin_project := "admin" }

/-- Symbolic bcrypt hash: records the password it was derived from. -/
structure PwHash where
  password : String
deriving Repr, DecidableEq

/-- `auth.get_password_hash`: bcrypt hash of a password (salt not modelled). -/
def get_password_hash (password : String) : PwHash :=
  ⟨password⟩

/-- `auth.verify_password`: bcrypt verification against a stored hash. -/
def verify_password (plain_password : String) (hashed_password : PwHash) : Bool :=
  plain_password = hashed_password.password

/-- Decoded JWT payload: the caller-supplied claims dict (which never contains
an "exp" key in this code base) together with the derived "exp" claim. -/
structure JwtPayload where
  data : List (String × String)
  exp : Int
deriving Repr, DecidableEq

/-- A JWT string, symbolically: its payload and the key it was signed with. -/
structure Jwt where
  payload : JwtPayload
  key : String
deriving Repr, DecidableEq

/-- `auth.create_access_token(data, expires_delta)` at wall-clock `now`.
Python's `if expires_delta:` is a truthiness test, so `timedelta(0)` (and only
`None` and zero) selects the 24-hour default branch. -/
def create_access_token (data : List (String × String))
    (expires_delta : Option Int) (now : Int) : Jwt :=
  let expire : Int :=
    match expires_delta with
    | some d => if d ≠ 0 then now + d else now + 86400
    | none => now + 86400
  { payload := { data := data, exp := expire }, key := settings.secret_key }

/-- `auth.verify_token` at wall-clock `now`: `jwt.decode` succeeds iff the
signature was made with the process key and the "exp" claim has not passed
(python-jose raises `ExpiredSignatureError` exactly when `exp < now`); any
`JWTError` is caught and turned into `None`. -/
def verify_token (token : Jwt) (now : Int) : Option JwtPayload :=
  if token.key = settings.secret_key then
    if token.payload.exp < now then none else some token.payload
  else none

/-! Records of `models/keystone.py` (columns the core logic reads). -/

/-- Row of the `domains` table. -/
structure DomainRec where
  id : String
  name : String
  description : String
  enabled : Bool
deriving Repr, DecidableEq

/-- Row of the `projects` table. -/
structure ProjectRec where
  id : String
  name : String
  description : String
  enabled : Bool
  domain_id : String
  parent_id : Option String
deriving Repr, DecidableEq

/-- Row of the `users` table. -/
structure UserRec where
  id : String
  name : String
  email : Option String
  password_hash : PwHash
  enabled : Bool
  domain_id : String
  default_project_id : Option String
deriving Repr, DecidableEq

/-- Row of the `roles` table. -/
structure RoleRec where
  id : String
  name : String
  description : String
deriving Repr, DecidableEq

/-- Row of the `tokens` table.  `token_hash` holds the full signed token
string (stored in the clear in this mock). -/
structure TokenRec where
  id : String
  token_hash : Jwt
  user_id : String
  project_id : Option String
  expires_at : Int
  created_at : Int
deriving Repr, DecidableEq

/-- The relational store, plus the deterministic uuid supply. -/
structure Store where
  domains : List DomainRec
  projects : List ProjectRec
  users : List UserRec
  roles : List RoleRec
  tokens : List TokenRec
  nextId : Nat
deriving Repr, DecidableEq

/-- Fresh primary key drawn from the store's uuid supply. -/
def freshId (s : Store) : String :=
  "uuid-" ++ toString s.nextId

/-! Read operations of `KeystoneService` (service.py). -/

/-- `KeystoneService.get_domain`. -/
def get_domain (s : Store) (domain_id : String) : Option DomainRec :=
  s.domains.find? (fun d => d.id = domain_id)

/-- `KeystoneService.list_domains`. -/
def list_domains (s : Store) : List DomainRec :=
  s.domains

/-- `KeystoneService.get_project`. -/
def get_project (s : Store) (project_id : String) : Option ProjectRec :=
  s.projects.find? (fun p => p.id = project_id)

/-- `KeystoneService.list_projects`. -/
def list_projects (s : Store) : List ProjectRec :=
  s.projects

/-- `KeystoneService.get_user`. -/
def get_user (s : Store) (user_id : String) : Option UserRec :=
  s.users.find? (fun u => u.id = user_id)

/-- `KeystoneService.get_user_by_name`. -/
def get_user_by_name (s : Store) (username : String) (domain_id : String) :
    Option UserRec :=
  s.users.find? (fun u => u.name = username ∧ u.domain_id = domain_id)

/-- `KeystoneService.authenticate_user`: user lookup, password check, then
enabled check; every failure is collapsed to `None`. -/
def authenticate_user (s : Store) (username password domain_id : String) :
    Option UserRec :=
  match get_user_by_name s username domain_id with
  | none => none
  | some user =>
    if ¬ verify_password password user.password_hash then none
    else if ¬ user.enabled then none
    else some user

/-- `KeystoneService.create_token` at wall-clock `now`: builds the JWT claims
(the "project_id" claim is added only when `project_id` is truthy), signs with
a 24-hour expiry, and persists a `Token` row keyed by the full token string.
Returns (row, signed token, updated store). -/
def create_token (s : Store) (user : UserRec) (project_id : Option String)
    (now : Int) : TokenRec × Jwt × Store :=
  let token_data : List (String × String) :=
    [("sub", user.id), ("username", user.name), ("domain_id", user.domain_id)]
      ++ (match project_id with
          | some pid => if pid ≠ "" then [("project_id", pid)] else []
          | none => [])
  let access_token := create_access_token token_data (some 86400) now
  let db_token : TokenRec :=
    { id := freshId s
      token_hash := access_token
      user_id := user.id
      project_id := project_id
      expires_at := now + 86400
      created_at := now }
  (db_token, access_token,
    { s with tokens := s.tokens ++ [db_token], nextId := s.nextId + 1 })

/-- `KeystoneService.validate_token` at wall-clock `now`: cryptographic
verification, then a store lookup for a row whose `token_hash` equals the
exact token string with `expires_at` strictly in the future. -/
def validate_token (s : Store) (token : Jwt) (now : Int) : Option JwtPayload :=
  match verify_token token now with
  | none => none
  | some payload =>
    match s.tokens.find? (fun t => t.token_hash = token ∧ now < t.expires_at) with
    | none => none
    | some _ => some payload

/-! Router layer (`services/keystone/router.py`). -/

/-- An HTTP error response raised via `HTTPException(status_code, detail)`. -/
structure HttpError where
  status : Nat
  detail : String
deriving Repr, DecidableEq

/-- 401 raised when `authenticate_user` returns `None`. -/
def invalidCredentials : HttpError :=
  ⟨401, "Invalid authentication credentials"⟩

/-- 404 raised when a requested project scope does not resolve. -/
def projectNotFound : HttpError :=
  ⟨404, "Project not found"⟩

/-- 400 raised when the identity dict has no "password" key. -/
def unsupportedAuthMethod : HttpError :=
  ⟨400, "Unsupported authentication method"⟩

/-- 404 raised by the validation endpoint when `validate_token` returns `None`. -/
def tokenNotFound : HttpError :=
  ⟨404, "Token not found"⟩

/-- 404 raised by the validation endpoint on a dangling `sub` reference. -/
def userNotFound : HttpError :=
  ⟨404, "User not found"⟩

/-- 500 produced by FastAPI for an uncaught `KeyError` on `payload["sub"]`. -/
def internalServerError : HttpError :=
  ⟨500, "Internal Server Error"⟩

/-- The `scope.project` dict of an auth request: optional "id" / "name" keys. -/
structure ProjectScope where
  id : Option String
  name : Option String
deriving Repr, DecidableEq

/-- A `POST /v3/auth/tokens` body, after FastAPI parsing.  `hasPasswordMethod`
is the dynamic `"password" in identity` check; `domain_id` is
`user_data.get("domain", {}).get("id", ...)` (the `.get` default "default" is
applied in `resolveDomainId`'s caller); `scope` is `None` both when no scope
was sent and when the scope dict has no "project" key. -/
structure AuthReq where
  hasPasswordMethod : Bool
  username : String
  password : String
  domain_id : Option String
  scope : Option ProjectScope
deriving Repr, DecidableEq

/-- The router's "default" domain-name fixup: when the supplied id is the
literal "default", take the id of the first domain whose name lowercases to
"default"; when no such domain exists the id silently stays "default". -/
def resolveDomainId (s : Store) (domain_id : String) : String :=
  if domain_id = "default" then
    match (list_domains s).find? (fun d => pyLower d.name = "default") with
    | some d => d.id
    | none => domain_id
  else domain_id

/-- Scope resolution of the login flow.  A truthy "id" takes priority and is
looked up directly (no fallback to the name on a miss); otherwise a truthy
"name" is resolved to the first exact name match over all projects; a
requested scope that resolves to no project is a 404.  Returns the resolved
project together with the flow's `project_id` variable. -/
def resolveScope (s : Store) (scope : Option ProjectScope) :
    Except HttpError (Option ProjectRec × Option String) :=
  match scope with
  | none => .ok (none, none)
  | some spec =>
    let step : Option ProjectRec × Option String :=
      if pyTruthy spec.id then (get_project s (spec.id.getD ""), spec.id)
      else if pyTruthy spec.name then
        match (list_projects s).find? (fun p => some p.name = spec.name) with
        | some p => (some p, some p.id)
        | none => (none, spec.id)
      else (none, spec.id)
    match step.1 with
    | none => .error projectNotFound
    | some p => .ok (some p, step.2)

/-- Python's `request.url.port or 5000`: `None` and `0` fall back to 5000. -/
def requestPort : Option Nat → Nat
  | none => 5000
  | some p => if p ≠ 0 then p else 5000

/-- The router's base URL: the host part is hardcoded "localhost"; only the
port is taken from the inbound request. -/
def baseUrl (port : Option Nat) : String :=
  "http://localhost:" ++ toString (requestPort port)

/-- One endpoint of a service catalog entry. -/
structure Endpoint where
  id : String
  interface : String
  url : String
deriving Repr, DecidableEq

/-- One service catalog entry (`ServiceCatalogEntry` schema). -/
structure ServiceCatalogEntry where
  type : String
  name : String
  endpoints : List Endpoint
deriving Repr, DecidableEq

/-- The catalog literal built inline by the login route. -/
def serviceCatalog (base_url : String) : List ServiceCatalogEntry :=
  [ { type := "identity", name := "keystone"
      endpoints := [⟨"keystone-public", "public", base_url ++ "/v3"⟩] }
  , { type := "compute", name := "nova"
      endpoints := [⟨"nova-public", "public", base_url ++ "/v2.1"⟩] }
  , { type := "network", name := "neutron"
      endpoints := [⟨"neutron-public", "public", base_url ++ "/v2.0"⟩] }
  , { type := "image", name := "glance"
      endpoints := [⟨"glance-public", "public", base_url ++ "/v2"⟩] } ]

/-- A `{"id": ..., "name": ...}` domain sub-object of a response body. -/
structure DomainRef where
  id : String
  name : String
deriving Repr, DecidableEq

/-- The `token.user` object of a response body. -/
structure UserView where
  id : String
  name : String
  domain : DomainRef
deriving Repr, DecidableEq

/-- The `token.project` object of a response body. -/
structure ProjectView where
  id : String
  name : String
  domain : DomainRef
deriving Repr, DecidableEq

/-- The `token` object of a successful `POST /v3/auth/tokens` body. -/
structure TokenBody where
  expires_at : Int
  issued_at : Int
  methods : List String
  user : UserView
  catalog : List ServiceCatalogEntry
  project : Option ProjectView
deriving Repr, DecidableEq

/-- A successful login response: body plus the `X-Subject-Token` header. -/
structure LoginSuccess where
  body : TokenBody
  x_subject_token : Jwt
deriving Repr, DecidableEq

/-- The `token` object of a successful `GET /v3/auth/tokens` body. -/
structure ValidateBody where
  methods : List String
  user : UserView
  project : Option ProjectView
deriving Repr, DecidableEq

/-- The `POST /v3/auth/tokens` route (`create_token` in router.py) at
wall-clock `now`, on a request that reached the server at `host`:`port`.
`host` is observable by the handler through `request.url` but is never read;
the emitted base URL hardcodes "localhost".  Returns the outcome together
with the store after the call. -/
def createTokenEndpoint (s : Store) (req : AuthReq) (host : String)
    (port : Option Nat) (now : Int) : Except HttpError LoginSuccess × Store :=
  if req.hasPasswordMethod then
    let domain_id := resolveDomainId s (req.domain_id.getD "default")
    match authenticate_user s req.username req.password domain_id with
    | none => (.error invalidCredentials, s)
    | some user =>
      match resolveScope s req.scope with
      | .error e => (.error e, s)
      | .ok (project, project_id) =>
        let res := create_token s user project_id now
        let db_token := res.1
        let access_token := res.2.1
        let base_url := baseUrl port
        (.ok { body := { expires_at := db_token.expires_at
                         issued_at := db_token.created_at
                         methods := ["password"]
                         user := { id := user.id, name := user.name
                                   domain := ⟨user.domain_id, "Default"⟩ }
                         catalog := serviceCatalog base_url
                         project := project.map fun p =>
                           { id := p.id, name := p.name
                             domain := ⟨p.domain_id, "Default"⟩ } }
               x_subject_token := access_token }, res.2.2)
  else (.error unsupportedAuthMethod, s)

/-- The validation route's project block: `"project_id" in payload and
payload["project_id"]` (truthiness), then a `get_project` lookup whose miss is
silently rendered as no project object. -/
def projectViewOf (s : Store) (pidOpt : Option String) : Option ProjectView :=
  match pidOpt with
  | some pid =>
    if pid ≠ "" then
      match get_project s pid with
      | some p => some { id := p.id, name := p.name
                         domain := ⟨p.domain_id, "Default"⟩ }
      | none => none
    else none
  | none => none

/-- The `GET /v3/auth/tokens` route (`validate_token` in router.py) at
wall-clock `now`, introspecting the `X-Subject-Token` header value. -/
def validateTokenEndpoint (s : Store) (x_subject_token : Jwt) (now : Int) :
    Except HttpError ValidateBody :=
  match validate_token s x_subject_token now with
  | none => .error tokenNotFound
  | some payload =>
    match payload.data.lookup "sub" with
    | none => .error internalServerError
    | some sub =>
      match get_user s sub with
      | none => .error userNotFound
      | some user =>
        .ok { methods := ["password"]
              user := { id := user.id, name := user.name
                        domain := ⟨user.domain_id, "Default"⟩ }
              project := projectViewOf s (payload.data.lookup "project_id") }

/-- Deletion of a token's store record (the revocation the spec describes:
the store row disappears while the signed string stays valid). -/
def revokeToken (s : Store) (token : Jwt) : Store :=
  { s with tokens := s.tokens.filter (fun t => t.token_hash ≠ token) }

/-! Bootstrap (`bootstrap.py`). -/

/-- `bootstrap.create_default_domain`: find the domain named exactly
"Default", creating it when absent; returns the row and the store after. -/
def create_default_domain (s : Store) : DomainRec × Store :=
  match s.domains.find? (fun d => d.name = "Default") with
  | some domain => (domain, s)
  | none =>
    let domain : DomainRec :=
      { id := freshId s, name := "Default"
        description := "Default domain for MockOpenStack", enabled := true }
    (domain, { s with domains := s.domains ++ [domain], nextId := s.nextId + 1 })

/-- `bootstrap.create_admin_project`: find the project named
`settings.admin_project` (name only, any domain), creating it when absent. -/
def create_admin_project (s : Store) (domain : DomainRec) : ProjectRec × Store :=
  match s.projects.find? (fun p => p.name = settings.admin_project) with
  | some project => (project, s)
  | none =>
    let project : ProjectRec :=
      { id := freshId s, name := settings.admin_project
        description := "Admin project for MockOpenStack", enabled := true
        domain_id := domain.id, parent_id := none }
    (project,
      { s with projects := s.projects ++ [project], nextId := s.nextId + 1 })

/-- `bootstrap.create_admin_user`: find the user `settings.admin_username`
in the given domain, creating it (with a fresh password hash) when absent. -/
def create_admin_user (s : Store) (domain : DomainRec) (project : ProjectRec) :
    UserRec × Store :=
  match s.users.find? (fun u =>
      u.name = settings.admin_username ∧ u.domain_id = domain.id) with
  | some admin_user => (admin_user, s)
  | none =>
    let admin_user : UserRec :=
      { id := freshId s, name := settings.admin_username, email := none
        password_hash := get_password_hash settings.admin_password
        enabled := true, domain_id := domain.id
        default_project_id := some project.id }
    (admin_user,
      { s with users := s.users ++ [admin_user], nextId := s.nextId + 1 })

/-- One iteration of `bootstrap.create_default_roles`'s loop: ensure a role
of the given name exists, with description `f"\x7brole_name.capitalize()\x7d role"`. -/
def ensureRole (s : Store) (role_name : String) : Store :=
  match s.roles.find? (fun r => r.name = role_name) with
  | some _ => s
  | none =>
    { s with
      roles := s.roles ++
        [{ id := freshId s, name := role_name
           description := pyCapitalize role_name ++ " role" }]
      nextId := s.nextId + 1 }

/-- `bootstrap.create_default_roles`: ensure the roles admin, member, reader. -/
def create_default_roles (s : Store) : Store :=
  ["admin", "member", "reader"].foldl ensureRole s

/-- `bootstrap.bootstrap_keystone`'s creation sequence (table creation and
printing aside): default domain, admin project, admin user, default roles. -/
def bootstrap_keystone (s : Store) : Store :=
  let dres := create_default_domain s
  let pres := create_admin_project dres.2 dres.1
  let ures := create_admin_user pres.2 dres.1 pres.1
  create_default_roles ures.2

/-! Concrete stores and requests used by counterexamples and witnesses. -/

/-- A store holding the usual bootstrap-shaped data: a "Default" domain, an
enabled admin user with password "password", a disabled user, one project. -/
def demoStore : Store :=
  { domains := [⟨"d1", "Default", "", true⟩]
    projects := [⟨"p1", "admin", "", true, "d1", none⟩]
    users := [⟨"u1", "admin", none, ⟨"password"⟩, true, "d1", none⟩,
              ⟨"u2", "carol", none, ⟨"pw2"⟩, false, "d1", none⟩]
    roles := []
    tokens := []
    nextId := 0 }

/-- A well-formed unscoped password login for the demo store's admin user. -/
def demoReq : AuthReq :=
  { hasPasswordMethod := true, username := "admin", password := "password"
    domain_id := none, scope := none }

/-- A project-scoped token for a user "u1" of domain "d1", issued at 0. -/
def corpTok : Jwt :=
  create_access_token
    [("sub", "u1"), ("username", "admin"), ("domain_id", "d1"),
     ("project_id", "p1")] (some 86400) 0

/-- A store whose only domain is named "Corp" — no domain is named "Default" —
holding the store row of `corpTok`. -/
def corpStore : Store :=
  { domains := [⟨"d1", "Corp", "", true⟩]
    projects := [⟨"p1", "proj", "", true, "d1", none⟩]
    users := [⟨"u1", "admin", none, ⟨"password"⟩, true, "d1", none⟩]
    roles := []
    tokens := [⟨"t1", corpTok, "u1", some "p1", 86400, 0⟩]
    nextId := 0 }

/-! Theorems settling the claims. -/

/-- C1 counterexample.  The claim requires that a token issued with ttl = 0 and
then verified must fail as expired, but `create_access_token` treats a zero
`timedelta` as falsy and substitutes the 24-hour default, so verifying one hour
after issuance still succeeds and returns the claims. -/
theorem C1_ttl_zero_counterexample :
    verify_token (create_access_token [("sub", "u1")] (some 0) 1000) 4600
      = some { data := [("sub", "u1")], exp := 87400 }
    ∧ verify_token (create_access_token [("sub", "u1")] (some 0) 1000) 4600
      ≠ none := by
  refine ⟨rfl, by decide⟩

/-- C1 amended: for a nonzero ttl, `verify_token ∘ create_access_token` returns
the input claims plus the derived expiry when the expiry has not strictly
passed, and fails once the current time strictly exceeds issue + ttl; a zero
ttl however is truthiness-collapsed onto the no-ttl 24-hour default, so an
immediately verified ttl = 0 token succeeds instead of failing as expired. -/
theorem C1_token_roundtrip_amended (data : List (String × String))
    (d now t : Int) (hd : d ≠ 0) :
    (¬ now + d < t →
      verify_token (create_access_token data (some d) now) t
        = some { data := data, exp := now + d })
    ∧ (now + d < t →
      verify_token (create_access_token data (some d) now) t = none)
    ∧ create_access_token data (some 0) now = create_access_token data none now
    ∧ verify_token (create_access_token data (some 0) now) now
        = some { data := data, exp := now + 86400 } := by
  have h24 : ¬ (now + 86400 < now) := by omega
  refine ⟨?_, ?_, ?_, ?_⟩
  · intro h
    simp [create_access_token, verify_token, hd, h]
  · intro h
    simp [create_access_token, verify_token, hd, h]
  · simp [create_access_token]
  · simp [create_access_token, verify_token, h24]

/-- C1 witness: a ttl-5 token issued at 100 verifies at 103. -/
theorem C1_token_roundtrip_amended_witness :
    verify_token (create_access_token [("sub", "x")] (some 5) 100) 103
      = some { data := [("sub", "x")], exp := 105 } :=
  (C1_token_roundtrip_amended [("sub", "x")] 5 100 103 (by decide)).1 (by decide)

/-- C2: a token is accepted by `validate_token` iff it decodes under the
process signing key with an unexpired expiry claim and a `Token` row whose
`token_hash` equals the exact token string with `expires_at` strictly in the
future exists; and after deleting the row the same token string is rejected at
every instant, so the introspection endpoint answers the 404 token error. -/
theorem C2_validate_token_iff_and_revocation (s : Store) (tok : Jwt)
    (now : Int) :
    (∀ payload, validate_token s tok now = some payload ↔
      (verify_token tok now = some payload
        ∧ ∃ r ∈ s.tokens, r.token_hash = tok ∧ now < r.expires_at))
    ∧ (∀ now2 : Int, validate_token (revokeToken s tok) tok now2 = none
        ∧ validateTokenEndpoint (revokeToken s tok) tok now2
            = .error tokenNotFound) := by
  constructor
  · intro payload
    unfold validate_token
    cases hv : verify_token tok now with
    | none => simp
    | some q =>
      cases hf : s.tokens.find?
          (fun t => t.token_hash = tok ∧ now < t.expires_at) with
      | none =>
        simp only [List.find?_eq_none, decide_eq_true_eq] at hf
        constructor
        · intro h; exact absurd h (by simp)
        · rintro ⟨-, r, hr, hcond⟩
          exact absurd hcond (hf r hr)
      | some r =>
        have hmem := List.mem_of_find?_eq_some hf
        have hcond := List.find?_some hf
        simp only [decide_eq_true_eq] at hcond
        constructor
        · intro h; exact ⟨h, r, hmem, hcond⟩
        · intro h; exact h.1
  · intro now2
    have hfind : (revokeToken s tok).tokens.find?
        (fun t => t.token_hash = tok ∧ now2 < t.expires_at) = none := by
      simp only [revokeToken, List.find?_eq_none, List.mem_filter,
        decide_eq_true_eq]
      rintro x ⟨hx, hne⟩ ⟨heq, -⟩
      exact hne heq
    have hvt : validate_token (revokeToken s tok) tok now2 = none := by
      unfold validate_token
      cases hv : verify_token tok now2 with
      | none => rfl
      | some q => rw [hfind]
    refine ⟨hvt, ?_⟩
    unfold validateTokenEndpoint
    simp [hvt]

/-- C2 witness: the stored Corp token is accepted before its expiry. -/
theorem C2_validate_token_iff_and_revocation_witness :
    validate_token corpStore corpTok 10
      = some { data := [("sub", "u1"), ("username", "admin"),
                        ("domain_id", "d1"), ("project_id", "p1")]
               exp := 86400 } :=
  ((C2_validate_token_iff_and_revocation corpStore corpTok 10).1 _).mpr
    ⟨rfl, ⟨"t1", corpTok, "u1", some "p1", 86400, 0⟩, by decide, by decide,
      by decide⟩

/-- Shared helper: a password request whose credential check comes back empty
is answered with the single 401 error, store untouched. -/
theorem createTokenEndpoint_auth_failed (s : Store) (req : AuthReq)
    (host : String) (port : Option Nat) (now : Int)
    (hm : req.hasPasswordMethod = true)
    (hauth : authenticate_user s req.username req.password
        (resolveDomainId s (req.domain_id.getD "default")) = none) :
    createTokenEndpoint s req host port now = (.error invalidCredentials, s) := by
  simp [createTokenEndpoint, hm, hauth]

/-- C3: whether the user is missing, the password is wrong, or the user is
disabled, the login route produces the literally identical observable outcome:
status 401, detail "Invalid authentication credentials", store unchanged. -/
theorem C3_non_enumeration (s : Store) (req : AuthReq) (host : String)
    (port : Option Nat) (now : Int) (hm : req.hasPasswordMethod = true) :
    (get_user_by_name s req.username
        (resolveDomainId s (req.domain_id.getD "default")) = none →
      createTokenEndpoint s req host port now = (.error invalidCredentials, s))
    ∧ (∀ u, get_user_by_name s req.username
          (resolveDomainId s (req.domain_id.getD "default")) = some u →
        verify_password req.password u.password_hash = false →
        createTokenEndpoint s req host port now
          = (.error invalidCredentials, s))
    ∧ (∀ u, get_user_by_name s req.username
          (resolveDomainId s (req.domain_id.getD "default")) = some u →
        u.enabled = false →
        createTokenEndpoint s req host port now
          = (.error invalidCredentials, s))
    ∧ invalidCredentials.status = 401 := by
  refine ⟨?_, ?_, ?_, rfl⟩
  · intro h
    exact createTokenEndpoint_auth_failed s req host port now hm
      (by simp [authenticate_user, h])
  · intro u hu hpw
    exact createTokenEndpoint_auth_failed s req host port now hm
      (by simp [authenticate_user, hu, hpw])
  · intro u hu hen
    refine createTokenEndpoint_auth_failed s req host port now hm ?_
    unfold authenticate_user
    rw [hu]
    by_cases hpw : verify_password req.password u.password_hash
    · simp [hpw, hen]
    · simp [hpw]

/-- C3 witness: wrong password for the demo store's existing admin user. -/
theorem C3_non_enumeration_witness :
    createTokenEndpoint demoStore
      { hasPasswordMethod := true, username := "admin", password := "wrong"
        domain_id := some "d1", scope := none } "example.com" none 0
      = (.error invalidCredentials, demoStore) :=
  (C3_non_enumeration demoStore
      { hasPasswordMethod := true, username := "admin", password := "wrong"
        domain_id := some "d1", scope := none } "example.com" none 0
      rfl).2.1 ⟨"u1", "admin", none, ⟨"password"⟩, true, "d1", none⟩
    (by decide) (by decide)

/-- C4 counterexample.  With the literal domain id "default" and a store whose
only domain is named "Corp", the claim demands a 404 domain error, but the
route leaves the id as "default", the user lookup fails, and the outcome is
the 401 invalid-credentials error. -/
theorem C4_counterexample :
    createTokenEndpoint
      { domains := [⟨"d9", "Corp", "", true⟩], projects := [], users := []
        roles := [], tokens := [], nextId := 0 }
      { hasPasswordMethod := true, username := "alice", password := "pw"
        domain_id := some "default", scope := none } "example.com" none 0
      = (.error invalidCredentials,
         { domains := [⟨"d9", "Corp", "", true⟩], projects := [], users := []
           roles := [], tokens := [], nextId := 0 })
    ∧ invalidCredentials ≠ ⟨404, "Domain not found"⟩ := by
  exact ⟨rfl, by decide⟩

/-- C4 amended: when the supplied domain identifier is the literal "default"
and no domain's name case-insensitively equals "default", the id silently
stays the string "default" and the flow proceeds to the credential check, so a
request whose username does not exist in a domain literally called "default"
fails with the 401 invalid-credentials error — never with a domain 404. -/
theorem C4_default_domain_fallthrough (s : Store) (req : AuthReq)
    (host : String) (port : Option Nat) (now : Int)
    (hm : req.hasPasswordMethod = true)
    (hd : req.domain_id.getD "default" = "default")
    (hnodef : ∀ d ∈ s.domains, pyLower d.name ≠ "default")
    (huser : get_user_by_name s req.username "default" = none) :
    resolveDomainId s "default" = "default"
    ∧ createTokenEndpoint s req host port now = (.error invalidCredentials, s)
    ∧ invalidCredentials.status = 401 := by
  have hres : resolveDomainId s "default" = "default" := by
    unfold resolveDomainId list_domains
    have : s.domains.find? (fun d => pyLower d.name = "default") = none := by
      simp only [List.find?_eq_none, decide_eq_true_eq]
      exact hnodef
    simp [this]
  refine ⟨hres, ?_, rfl⟩
  refine createTokenEndpoint_auth_failed s req host port now hm ?_
  rw [hd, hres]
  simp [authenticate_user, huser]

/-- C4 witness: instantiation of the fallthrough on the Corp-only store. -/
theorem C4_default_domain_fallthrough_witness :
    createTokenEndpoint
      { domains := [⟨"d9", "Corp", "", true⟩], projects := [], users := []
        roles := [], tokens := [], nextId := 0 }
      { hasPasswordMethod := true, username := "bob", password := "pw"
        domain_id := none, scope := none } "h" (some 80) 7
      = (.error invalidCredentials,
         { domains := [⟨"d9", "Corp", "", true⟩], projects := [], users := []
           roles := [], tokens := [], nextId := 0 }) :=
  (C4_default_domain_fallthrough
      { domains := [⟨"d9", "Corp", "", true⟩], projects := [], users := []
        roles := [], tokens := [], nextId := 0 }
      { hasPasswordMethod := true, username := "bob", password := "pw"
        domain_id := none, scope := none } "h" (some 80) 7
      rfl rfl (by decide) (by decide)).2.1

/-- C5: `authenticate_user` returns a user exactly when the (name, domain)
lookup finds them, the password verifies against the stored hash, and the user
is enabled; a disabled user with the correct password yields `none`, and at
the route level the same 401 invalid-credentials error as a wrong password. -/
theorem C5_authenticate_user_requires_enabled (s : Store)
    (username password domain_id : String) :
    (∀ usr, authenticate_user s username password domain_id = some usr ↔
      (get_user_by_name s username domain_id = some usr
        ∧ verify_password password usr.password_hash = true
        ∧ usr.enabled = true))
    ∧ (∀ usr, get_user_by_name s username domain_id = some usr →
        verify_password password usr.password_hash = true →
        usr.enabled = false →
        authenticate_user s username password domain_id = none)
    ∧ (∀ (req : AuthReq) (host : String) (port : Option Nat) (now : Int) usr,
        req.hasPasswordMethod = true →
        req.username = username → req.password = password →
        resolveDomainId s (req.domain_id.getD "default") = domain_id →
        get_user_by_name s username domain_id = some usr →
        verify_password password usr.password_hash = true →
        usr.enabled = false →
        createTokenEndpoint s req host port now
          = (.error invalidCredentials, s)) := by
  have hdisabled : ∀ usr, get_user_by_name s username domain_id = some usr →
      verify_password password usr.password_hash = true →
      usr.enabled = false →
      authenticate_user s username password domain_id = none := by
    intro usr hu hpw hen
    unfold authenticate_user
    rw [hu]
    simp [hpw, hen]
  refine ⟨?_, hdisabled, ?_⟩
  · intro usr
    cases hu : get_user_by_name s username domain_id with
    | none =>
      have hl : authenticate_user s username password domain_id = none := by
        unfold authenticate_user; rw [hu]
      rw [hl]
      simp
    | some u =>
      by_cases hpw : verify_password password u.password_hash = true
      · by_cases hen : u.enabled = true
        · have hl : authenticate_user s username password domain_id = some u := by
            unfold authenticate_user; rw [hu]; simp [hpw, hen]
          rw [hl]
          constructor
          · intro h; injection h with h; subst h; exact ⟨rfl, hpw, hen⟩
          · rintro ⟨h, -, -⟩; exact h
        · have hl : authenticate_user s username password domain_id = none := by
            unfold authenticate_user; rw [hu]; simp [hpw, hen]
          rw [hl]
          constructor
          · intro h; exact Option.noConfusion h
          · rintro ⟨h, -, he⟩
            injection h with h; subst h; exact absurd he hen
      · have hl : authenticate_user s username password domain_id = none := by
          unfold authenticate_user; rw [hu]; simp [hpw]
        rw [hl]
        constructor
        · intro h; exact Option.noConfusion h
        · rintro ⟨h, hv, -⟩
          injection h with h; subst h; exact absurd hv hpw
  · intro req host port now usr hm hun hpw2 hdom hu hpw hen
    refine createTokenEndpoint_auth_failed s req host port now hm ?_
    rw [hun, hpw2, hdom]
    exact hdisabled usr hu hpw hen

/-- C5 witness: the demo store's disabled user with their correct password is
rejected with the 401 error. -/
theorem C5_authenticate_user_requires_enabled_witness :
    createTokenEndpoint demoStore
      { hasPasswordMethod := true, username := "carol", password := "pw2"
        domain_id := some "d1", scope := none } "h" none 3
      = (.error invalidCredentials, demoStore) :=
  (C5_authenticate_user_requires_enabled demoStore "carol" "pw2" "d1").2.2
    { hasPasswordMethod := true, username := "carol", password := "pw2"
      domain_id := some "d1", scope := none } "h" none 3
    ⟨"u2", "carol", none, ⟨"pw2"⟩, false, "d1", none⟩
    rfl rfl rfl (by decide) (by decide) (by decide) (by decide)

/-- Pointwise-equal predicates find the same first element. -/
theorem mFind_congr {α : Type} {p q : α → Bool} (h : ∀ a, p a = q a) :
    ∀ l : List α, l.find? p = l.find? q := by
  intro l
  induction l with
  | nil => rfl
  | cons a t ih => simp [List.find?_cons, h a, ih]

/-- Shared helper: characterization of a successful login call — the user
authenticated, the scope resolved, and the response and the new store are the
ones built from `create_token`'s output. -/
theorem createTokenEndpoint_ok_spec (s : Store) (req : AuthReq) (host : String)
    (port : Option Nat) (now : Int) (resp : LoginSuccess) (s' : Store)
    (h : createTokenEndpoint s req host port now = (.ok resp, s')) :
    ∃ user project project_id,
      authenticate_user s req.username req.password
          (resolveDomainId s (req.domain_id.getD "default")) = some user
      ∧ resolveScope s req.scope = .ok (project, project_id)
      ∧ resp =
        { body :=
            { expires_at := (create_token s user project_id now).1.expires_at
              issued_at := (create_token s user project_id now).1.created_at
              methods := ["password"]
              user := { id := user.id, name := user.name
                        domain := ⟨user.domain_id, "Default"⟩ }
              catalog := serviceCatalog (baseUrl port)
              project := project.map fun p =>
                { id := p.id, name := p.name
                  domain := ⟨p.domain_id, "Default"⟩ } }
          x_subject_token := (create_token s user project_id now).2.1 }
      ∧ s' = (create_token s user project_id now).2.2 := by
  cases hm : req.hasPasswordMethod with
  | false =>
    have hrun : createTokenEndpoint s req host port now
        = (.error unsupportedAuthMethod, s) := by
      simp [createTokenEndpoint, hm]
    rw [hrun] at h
    exact absurd h (by simp)
  | true =>
    cases hauth : authenticate_user s req.username req.password
        (resolveDomainId s (req.domain_id.getD "default")) with
    | none =>
      have hrun := createTokenEndpoint_auth_failed s req host port now hm hauth
      rw [hrun] at h
      exact absurd h (by simp)
    | some user =>
      cases hscope : resolveScope s req.scope with
      | error e =>
        have hrun : createTokenEndpoint s req host port now = (.error e, s) := by
          simp [createTokenEndpoint, hm, hauth, hscope]
        rw [hrun] at h
        exact absurd h (by simp)
      | ok pr =>
        obtain ⟨project, project_id⟩ := pr
        have hrun : createTokenEndpoint s req host port now =
            (.ok { body :=
                     { expires_at := (create_token s user project_id now).1.expires_at
                       issued_at := (create_token s user project_id now).1.created_at
                       methods := ["password"]
                       user := { id := user.id, name := user.name
                                 domain := ⟨user.domain_id, "Default"⟩ }
                       catalog := serviceCatalog (baseUrl port)
                       project := project.map fun p =>
                         { id := p.id, name := p.name
                           domain := ⟨p.domain_id, "Default"⟩ } }
                   x_subject_token := (create_token s user project_id now).2.1 },
             (create_token s user project_id now).2.2) := by
          simp [createTokenEndpoint, hm, hauth, hscope]
        rw [hrun] at h
        simp only [Prod.mk.injEq, Except.ok.injEq] at h
        exact ⟨user, project, project_id, rfl, rfl, h.1.symm, h.2.symm⟩

/-- C6: project scope resolution — a truthy scope id is resolved by direct id
lookup (no name fallback); otherwise a truthy scope name takes the first exact
case-sensitive name match over the whole project table; a requested scope that
resolves to no project is the 404 project error; and an unscoped login's
persisted row and issued token claims carry no project id. -/
theorem C6_scope_resolution (s : Store) (spec : ProjectScope) :
    (∀ pid, spec.id = some pid → pid ≠ "" →
      resolveScope s (some spec) =
        (match get_project s pid with
         | some p => .ok (some p, some pid)
         | none => .error projectNotFound))
    ∧ (∀ pn, pyTruthy spec.id = false → spec.name = some pn → pn ≠ "" →
      resolveScope s (some spec) =
        (match s.projects.find? (fun p => p.name = pn) with
         | some p => .ok (some p, some p.id)
         | none => .error projectNotFound))
    ∧ (pyTruthy spec.id = false → pyTruthy spec.name = false →
      resolveScope s (some spec) = .error projectNotFound)
    ∧ (∀ (req : AuthReq) (host : String) (port : Option Nat) (now : Int)
        (resp : LoginSuccess) (s' : Store),
        req.scope = none →
        createTokenEndpoint s req host port now = (.ok resp, s') →
        ∃ trec, s'.tokens = s.tokens ++ [trec] ∧ trec.project_id = none
          ∧ resp.x_subject_token.payload.data.lookup "project_id" = none
          ∧ resp.body.project = none) := by
  refine ⟨?_, ?_, ?_, ?_⟩
  · intro pid hid hpid
    cases hgp : get_project s pid with
    | some p => simp [resolveScope, hid, pyTruthy, hpid, hgp]
    | none => simp [resolveScope, hid, pyTruthy, hpid, hgp]
  · intro pn hidf hn hpn
    have ht : pyTruthy spec.name = true := by rw [hn]; simp [pyTruthy, hpn]
    have hcong : (list_projects s).find? (fun p => some p.name = spec.name)
        = s.projects.find? (fun p => p.name = pn) := by
      apply mFind_congr
      intro p
      rw [hn]
      simp
    cases hfind : s.projects.find? (fun p => p.name = pn) with
    | some p =>
      rw [hfind] at hcong
      simp [resolveScope, hidf, ht, hcong]
    | none =>
      rw [hfind] at hcong
      simp [resolveScope, hidf, ht, hcong]
  · intro hidf hnf
    simp [resolveScope, hidf, hnf]
  · intro req host port now resp s' hsc h
    obtain ⟨user, project, project_id, hauth, hscope, hresp, hs'⟩ :=
      createTokenEndpoint_ok_spec s req host port now resp s' h
    rw [hsc] at hscope
    have hpr : project = none ∧ project_id = none := by
      have : (Except.ok (none, none) :
          Except HttpError (Option ProjectRec × Option String))
          = .ok (project, project_id) := hscope
      simp only [Except.ok.injEq, Prod.mk.injEq] at this
      exact ⟨this.1.symm, this.2.symm⟩
    obtain ⟨hprj, hpid⟩ := hpr
    subst hprj hpid
    refine ⟨(create_token s user none now).1, ?_, ?_, ?_, ?_⟩
    · rw [hs']
      simp [create_token]
    · simp [create_token]
    · rw [hresp]
      simp [create_token, create_access_token]
    · simp [hresp]

/-- C6 witness: id-scoped resolution on the demo store, and the unscoped
login's persisted row and token claims on the demo store. -/
theorem C6_scope_resolution_witness :
    resolveScope demoStore (some ⟨some "p1", none⟩)
      = .ok (some ⟨"p1", "admin", "", true, "d1", none⟩, some "p1")
    ∧ resolveScope demoStore (some ⟨none, some "admin"⟩)
      = .ok (some ⟨"p1", "admin", "", true, "d1", none⟩, some "p1")
    ∧ resolveScope demoStore (some ⟨none, none⟩) = .error projectNotFound := by
  have h1 := (C6_scope_resolution demoStore ⟨some "p1", none⟩).1 "p1" rfl
    (by decide)
  have h2 := (C6_scope_resolution demoStore ⟨none, some "admin"⟩).2.1 "admin"
    (by decide) rfl (by decide)
  have h3 := (C6_scope_resolution demoStore ⟨none, none⟩).2.2.1 (by decide)
    (by decide)
  exact ⟨by rw [h1]; rfl, by rw [h2]; rfl, h3⟩

/-- C8 counterexample.  A login that reached the server at host 203.0.113.7
port 8080 gets catalog URLs on "localhost", not on the observed host that the
claim requires. -/
theorem C8_catalog_host_counterexample :
    ((createTokenEndpoint demoStore demoReq "203.0.113.7" (some 8080) 0).1.toOption.map
        (fun r => r.body.catalog.map (fun c => c.endpoints.map (·.url))))
      = some [["http://localhost:8080/v3"], ["http://localhost:8080/v2.1"],
              ["http://localhost:8080/v2.0"], ["http://localhost:8080/v2"]]
    ∧ ((createTokenEndpoint demoStore demoReq "203.0.113.7" (some 8080) 0).1.toOption.map
        (fun r => r.body.catalog.map (fun c => c.endpoints.map (·.url))))
      ≠ some [["http://203.0.113.7:8080/v3"], ["http://203.0.113.7:8080/v2.1"],
              ["http://203.0.113.7:8080/v2.0"], ["http://203.0.113.7:8080/v2"]] := by
  exact ⟨rfl, by decide⟩

/-- C8 amended: every successful authentication response carries the ordered
identity/compute/network/image catalog, each entry with exactly one "public"
endpoint, whose URLs are built from the hardcoded host "localhost" plus the
inbound request's port (5000 when the request carries none) and the per-service
version prefixes /v3, /v2.1, /v2.0, /v2 — the observed host is ignored. -/
theorem C8_catalog_localhost_amended (s : Store) (req : AuthReq) (host : String)
    (port : Option Nat) (now : Int) (resp : LoginSuccess) (s' : Store)
    (h : createTokenEndpoint s req host port now = (.ok resp, s')) :
    resp.body.catalog =
      [ { type := "identity", name := "keystone"
          endpoints := [⟨"keystone-public", "public",
            "http://localhost:" ++ toString (requestPort port) ++ "/v3"⟩] }
      , { type := "compute", name := "nova"
          endpoints := [⟨"nova-public", "public",
            "http://localhost:" ++ toString (requestPort port) ++ "/v2.1"⟩] }
      , { type := "network", name := "neutron"
          endpoints := [⟨"neutron-public", "public",
            "http://localhost:" ++ toString (requestPort port) ++ "/v2.0"⟩] }
      , { type := "image", name := "glance"
          endpoints := [⟨"glance-public", "public",
            "http://localhost:" ++ toString (requestPort port) ++ "/v2"⟩] } ] := by
  obtain ⟨user, project, project_id, -, -, hresp, -⟩ :=
    createTokenEndpoint_ok_spec s req host port now resp s' h
  rw [hresp]
  simp [serviceCatalog, baseUrl]

/-- C8 amended witness: a successful login on the demo store, observed host
"203.0.113.7", port 9999, emits the localhost:9999 catalog. -/
theorem C8_catalog_localhost_amended_witness :
    ((createTokenEndpoint demoStore demoReq "203.0.113.7" (some 9999) 0).1.toOption.get
        rfl).body.catalog
      = [ ⟨"identity", "keystone",
            [⟨"keystone-public", "public", "http://localhost:9999/v3"⟩]⟩,
          ⟨"compute", "nova",
            [⟨"nova-public", "public", "http://localhost:9999/v2.1"⟩]⟩,
          ⟨"network", "neutron",
            [⟨"neutron-public", "public", "http://localhost:9999/v2.0"⟩]⟩,
          ⟨"image", "glance",
            [⟨"glance-public", "public", "http://localhost:9999/v2"⟩]⟩ ] :=
  C8_catalog_localhost_amended demoStore demoReq "203.0.113.7" (some 9999) 0 _
    (createTokenEndpoint demoStore demoReq "203.0.113.7" (some 9999) 0).2 rfl

/-- C9: the login route persists a Token row only on the all-checks-passed
path; every failing request (unsupported method, bad credentials, unresolved
scope) leaves the store exactly as it was. -/
theorem C9_login_error_atomicity (s : Store) (req : AuthReq) (host : String)
    (port : Option Nat) (now : Int) :
    (∀ e s', createTokenEndpoint s req host port now = (.error e, s') → s' = s)
    ∧ (∀ resp s', createTokenEndpoint s req host port now = (.ok resp, s') →
        ∃ trec, s' = { s with tokens := s.tokens ++ [trec]
                              nextId := s.nextId + 1 }) := by
  constructor
  · intro e s' h
    cases hm : req.hasPasswordMethod with
    | false =>
      have hrun : createTokenEndpoint s req host port now
          = (.error unsupportedAuthMethod, s) := by
        simp [createTokenEndpoint, hm]
      rw [hrun] at h
      injection h with h1 h2
      exact h2.symm
    | true =>
      cases hauth : authenticate_user s req.username req.password
          (resolveDomainId s (req.domain_id.getD "default")) with
      | none =>
        have hrun := createTokenEndpoint_auth_failed s req host port now hm hauth
        rw [hrun] at h
        injection h with h1 h2
        exact h2.symm
      | some user =>
        cases hscope : resolveScope s req.scope with
        | error e2 =>
          have hrun : createTokenEndpoint s req host port now = (.error e2, s) := by
            simp [createTokenEndpoint, hm, hauth, hscope]
          rw [hrun] at h
          injection h with h1 h2
          exact h2.symm
        | ok pr =>
          obtain ⟨project, project_id⟩ := pr
          have hrun : createTokenEndpoint s req host port now
              = (.ok { body :=
                         { expires_at := (create_token s user project_id now).1.expires_at
                           issued_at := (create_token s user project_id now).1.created_at
                           methods := ["password"]
                           user := { id := user.id, name := user.name
                                     domain := ⟨user.domain_id, "Default"⟩ }
                           catalog := serviceCatalog (baseUrl port)
                           project := project.map fun p =>
                             { id := p.id, name := p.name
                               domain := ⟨p.domain_id, "Default"⟩ } }
                       x_subject_token := (create_token s user project_id now).2.1 },
                 (create_token s user project_id now).2.2) := by
            simp [createTokenEndpoint, hm, hauth, hscope]
          rw [hrun] at h
          injection h with h1 h2
          exact Except.noConfusion h1
  · intro resp s' h
    obtain ⟨user, project, project_id, -, -, -, hs'⟩ :=
      createTokenEndpoint_ok_spec s req host port now resp s' h
    refine ⟨(create_token s user project_id now).1, ?_⟩
    rw [hs']
    simp [create_token]

/-- C9 witness: a wrong-password login against the demo store leaves the
store untouched. -/
theorem C9_login_error_atomicity_witness :
    (createTokenEndpoint demoStore
      { hasPasswordMethod := true, username := "ghost", password := "x"
        domain_id := some "d1", scope := none } "h" none 0).2 = demoStore :=
  (C9_login_error_atomicity demoStore
      { hasPasswordMethod := true, username := "ghost", password := "x"
        domain_id := some "d1", scope := none } "h" none 0).1
    invalidCredentials
    (createTokenEndpoint demoStore
      { hasPasswordMethod := true, username := "ghost", password := "x"
        domain_id := some "d1", scope := none } "h" none 0).2 rfl

/-- Shared helper: every project sub-object the validation route can build
carries the hardcoded domain name "Default". -/
theorem projectViewOf_default (s : Store) (pidOpt : Option String) :
    ∀ pv, projectViewOf s pidOpt = some pv → pv.domain.name = "Default" := by
  intro pv
  cases pidOpt with
  | none => intro h; simp [projectViewOf] at h
  | some pid =>
    by_cases hpid : pid = ""
    · subst hpid
      intro h
      simp [projectViewOf] at h
    · cases hgp : get_project s pid with
      | none =>
        intro h
        simp [projectViewOf, hpid, hgp] at h
      | some p =>
        intro h
        simp [projectViewOf, hpid, hgp] at h
        rw [← h]

/-- C10: both the authentication response and the token validation response
render the user's (and, when present, the project's) domain name as the
constant "Default", whatever the store calls the referenced domain. -/
theorem C10_domain_name_hardcoded (s : Store) (req : AuthReq) (host : String)
    (port : Option Nat) (now : Int) (tok : Jwt) :
    (∀ resp s', createTokenEndpoint s req host port now = (.ok resp, s') →
      resp.body.user.domain.name = "Default"
      ∧ ∀ pv, resp.body.project = some pv → pv.domain.name = "Default")
    ∧ (∀ vresp, validateTokenEndpoint s tok now = .ok vresp →
      vresp.user.domain.name = "Default"
      ∧ ∀ pv, vresp.project = some pv → pv.domain.name = "Default") := by
  constructor
  · intro resp s' h
    obtain ⟨user, project, project_id, -, -, hresp, -⟩ :=
      createTokenEndpoint_ok_spec s req host port now resp s' h
    subst hresp
    refine ⟨rfl, ?_⟩
    intro pv hpv
    cases project with
    | none => exact absurd hpv (by simp)
    | some p =>
      simp only [Option.map_some'] at hpv
      have : ({ id := p.id, name := p.name
                domain := ⟨p.domain_id, "Default"⟩ } : ProjectView) = pv := by
        exact Option.some.inj hpv
      rw [← this]
  · intro vresp h
    unfold validateTokenEndpoint at h
    split at h
    · exact absurd h (by simp)
    · split at h
      · exact absurd h (by simp)
      · split at h
        · exact absurd h (by simp)
        · simp only [Except.ok.injEq] at h
          subst h
          exact ⟨rfl, projectViewOf_default _ _⟩

/-- C10 witness: on the Corp store — whose only domain is named "Corp" — the
validation response still renders the domain name "Default". -/
theorem C10_domain_name_hardcoded_witness :
    validateTokenEndpoint corpStore corpTok 10
      = .ok { methods := ["password"]
              user := ⟨"u1", "admin", ⟨"d1", "Default"⟩⟩
              project := some ⟨"p1", "proj", ⟨"d1", "Default"⟩⟩ }
    ∧ ({ methods := ["password"]
         user := ⟨"u1", "admin", ⟨"d1", "Default"⟩⟩
         project := some ⟨"p1", "proj", ⟨"d1", "Default"⟩⟩ } :
        ValidateBody).user.domain.name = "Default" :=
  ⟨rfl,
    ((C10_domain_name_hardcoded corpStore
        ⟨false, "", "", none, none⟩ "h" none 10 corpTok).2 _ rfl).1⟩

/-! Bootstrap lemmas for C7. -/

/-- After `create_default_domain`, a domain named "Default" — the returned
one — is the first such row, and no other table changed. -/
theorem create_default_domain_spec (s : Store) :
    ((create_default_domain s).2).domains.find? (fun x => x.name = "Default")
      = some (create_default_domain s).1
    ∧ ((create_default_domain s).2).projects = s.projects
    ∧ ((create_default_domain s).2).users = s.users
    ∧ ((create_default_domain s).2).roles = s.roles
    ∧ ((create_default_domain s).2).tokens = s.tokens := by
  unfold create_default_domain
  cases hf : s.domains.find? (fun x => x.name = "Default") with
  | some q => exact ⟨hf, rfl, rfl, rfl, rfl⟩
  | none =>
    refine ⟨?_, rfl, rfl, rfl, rfl⟩
    simp [List.find?_append, hf]

/-- `create_default_domain` is the identity when the row is already there. -/
theorem create_default_domain_noop {s : Store} {d : DomainRec}
    (h : s.domains.find? (fun x => x.name = "Default") = some d) :
    create_default_domain s = (d, s) := by
  unfold create_default_domain
  rw [h]

/-- After `create_admin_project`, the admin project is findable by name and no
other table changed. -/
theorem create_admin_project_spec (s : Store) (dom : DomainRec) :
    ((create_admin_project s dom).2).projects.find?
        (fun x => x.name = settings.admin_project)
      = some (create_admin_project s dom).1
    ∧ ((create_admin_project s dom).2).domains = s.domains
    ∧ ((create_admin_project s dom).2).users = s.users
    ∧ ((create_admin_project s dom).2).roles = s.roles
    ∧ ((create_admin_project s dom).2).tokens = s.tokens := by
  unfold create_admin_project
  cases hf : s.projects.find? (fun x => x.name = settings.admin_project) with
  | some q => exact ⟨hf, rfl, rfl, rfl, rfl⟩
  | none =>
    refine ⟨?_, rfl, rfl, rfl, rfl⟩
    simp only [List.find?_append, hf]
    simp

/-- `create_admin_project` is the identity when the row is already there. -/
theorem create_admin_project_noop {s : Store} {p : ProjectRec}
    (dom : DomainRec)
    (h : s.projects.find? (fun x => x.name = settings.admin_project) = some p) :
    create_admin_project s dom = (p, s) := by
  unfold create_admin_project
  rw [h]

/-- After `create_admin_user`, the admin user of the given domain is findable
and no other table changed. -/
theorem create_admin_user_spec (s : Store) (dom : DomainRec)
    (proj : ProjectRec) :
    ((create_admin_user s dom proj).2).users.find?
        (fun x => x.name = settings.admin_username ∧ x.domain_id = dom.id)
      = some (create_admin_user s dom proj).1
    ∧ ((create_admin_user s dom proj).2).domains = s.domains
    ∧ ((create_admin_user s dom proj).2).projects = s.projects
    ∧ ((create_admin_user s dom proj).2).roles = s.roles
    ∧ ((create_admin_user s dom proj).2).tokens = s.tokens := by
  unfold create_admin_user
  cases hf : s.users.find?
      (fun x => x.name = settings.admin_username ∧ x.domain_id = dom.id) with
  | some q => exact ⟨hf, rfl, rfl, rfl, rfl⟩
  | none =>
    refine ⟨?_, rfl, rfl, rfl, rfl⟩
    simp only [List.find?_append, hf]
    simp

/-- `create_admin_user` is the identity when the row is already there. -/
theorem create_admin_user_noop {s : Store} {u : UserRec} (dom : DomainRec)
    (proj : ProjectRec)
    (h : s.users.find?
        (fun x => x.name = settings.admin_username ∧ x.domain_id = dom.id)
      = some u) :
    create_admin_user s dom proj = (u, s) := by
  unfold create_admin_user
  rw [h]

/-- `ensureRole` changes no table other than roles. -/
theorem ensureRole_frames (s : Store) (n : String) :
    (ensureRole s n).domains = s.domains
    ∧ (ensureRole s n).projects = s.projects
    ∧ (ensureRole s n).users = s.users
    ∧ (ensureRole s n).tokens = s.tokens := by
  unfold ensureRole
  cases hf : s.roles.find? (fun r => r.name = n) with
  | some q => exact ⟨rfl, rfl, rfl, rfl⟩
  | none => exact ⟨rfl, rfl, rfl, rfl⟩

/-- `ensureRole` makes its role findable. -/
theorem ensureRole_find_self (s : Store) (n : String) :
    ((ensureRole s n).roles.find? (fun x => x.name = n)).isSome := by
  unfold ensureRole
  cases hf : s.roles.find? (fun r => r.name = n) with
  | some q => simp [hf]
  | none => simp [List.find?_append, hf]

/-- `ensureRole` preserves the findability of any role. -/
theorem ensureRole_find_pres {s : Store} {p : RoleRec → Bool}
    (h : (s.roles.find? p).isSome) (n : String) :
    ((ensureRole s n).roles.find? p).isSome := by
  unfold ensureRole
  cases hf : s.roles.find? (fun r => r.name = n) with
  | some q => exact h
  | none =>
    obtain ⟨r, hr⟩ := Option.isSome_iff_exists.mp h
    simp [List.find?_append, hr]

/-- `ensureRole` is the identity when the role is already there. -/
theorem ensureRole_noop {s : Store} {n : String}
    (h : (s.roles.find? (fun x => x.name = n)).isSome) : ensureRole s n = s := by
  unfold ensureRole
  cases hf : s.roles.find? (fun r => r.name = n) with
  | some q => rfl
  | none => rw [hf] at h; simp at h

/-- `create_default_roles` changes no table other than roles. -/
theorem create_default_roles_frames (t : Store) :
    (create_default_roles t).domains = t.domains
    ∧ (create_default_roles t).projects = t.projects
    ∧ (create_default_roles t).users = t.users
    ∧ (create_default_roles t).tokens = t.tokens := by
  obtain ⟨h1, h2, h3, h4⟩ := ensureRole_frames t "admin"
  obtain ⟨g1, g2, g3, g4⟩ := ensureRole_frames (ensureRole t "admin") "member"
  obtain ⟨k1, k2, k3, k4⟩ :=
    ensureRole_frames (ensureRole (ensureRole t "admin") "member") "reader"
  exact ⟨k1.trans (g1.trans h1), k2.trans (g2.trans h2),
    k3.trans (g3.trans h3), k4.trans (g4.trans h4)⟩

/-- Running the role-seeding loop twice is the same as running it once. -/
theorem create_default_roles_idem (t : Store) :
    create_default_roles (create_default_roles t) = create_default_roles t := by
  show ensureRole (ensureRole (ensureRole
      (ensureRole (ensureRole (ensureRole t "admin") "member") "reader")
      "admin") "member") "reader"
    = ensureRole (ensureRole (ensureRole t "admin") "member") "reader"
  have ha : (((ensureRole (ensureRole (ensureRole t "admin") "member")
      "reader").roles.find? (fun x => x.name = "admin")).isSome) :=
    ensureRole_find_pres
      (ensureRole_find_pres (ensureRole_find_self t "admin") "member") "reader"
  rw [ensureRole_noop ha]
  have hm : (((ensureRole (ensureRole (ensureRole t "admin") "member")
      "reader").roles.find? (fun x => x.name = "member")).isSome) :=
    ensureRole_find_pres
      (ensureRole_find_self (ensureRole t "admin") "member") "reader"
  rw [ensureRole_noop hm]
  have hr : (((ensureRole (ensureRole (ensureRole t "admin") "member")
      "reader").roles.find? (fun x => x.name = "reader")).isSome) :=
    ensureRole_find_self (ensureRole (ensureRole t "admin") "member") "reader"
  rw [ensureRole_noop hr]

/-- C7: the bootstrap creation sequence is idempotent — running it a second
time finds every row already present, inserts nothing, and returns the store
of the first run unchanged (same row counts, same ids). -/
theorem C7_bootstrap_idempotent (s : Store) :
    bootstrap_keystone (bootstrap_keystone s) = bootstrap_keystone s := by
  obtain ⟨d, s1, hds⟩ : ∃ d s1, create_default_domain s = (d, s1) := ⟨_, _, rfl⟩
  obtain ⟨p, s2, hps⟩ : ∃ p s2, create_admin_project s1 d = (p, s2) :=
    ⟨_, _, rfl⟩
  obtain ⟨u, s3, hus⟩ : ∃ u s3, create_admin_user s2 d p = (u, s3) :=
    ⟨_, _, rfl⟩
  have hboot : bootstrap_keystone s = create_default_roles s3 := by
    simp only [bootstrap_keystone, hds, hps, hus]
  have hA := create_default_domain_spec s
  rw [hds] at hA
  have hA1 : s1.domains.find? (fun x => x.name = "Default") = some d := hA.1
  have hB := create_admin_project_spec s1 d
  rw [hps] at hB
  have hB1 : s2.projects.find? (fun x => x.name = settings.admin_project)
      = some p := hB.1
  have hBdom : s2.domains = s1.domains := hB.2.1
  have hC := create_admin_user_spec s2 d p
  rw [hus] at hC
  have hC1 : s3.users.find?
      (fun x => x.name = settings.admin_username ∧ x.domain_id = d.id)
      = some u := hC.1
  have hCdom : s3.domains = s2.domains := hC.2.1
  have hCproj : s3.projects = s2.projects := hC.2.2.1
  have hR := create_default_roles_frames s3
  have hFd : (create_default_roles s3).domains = s1.domains := by
    rw [hR.1, hCdom, hBdom]
  have hFp : (create_default_roles s3).projects = s2.projects := by
    rw [hR.2.1, hCproj]
  have hFu : (create_default_roles s3).users = s3.users := hR.2.2.1
  have h2d : create_default_domain (create_default_roles s3)
      = (d, create_default_roles s3) :=
    create_default_domain_noop (by rw [hFd]; exact hA1)
  have h2p : create_admin_project (create_default_roles s3) d
      = (p, create_default_roles s3) :=
    create_admin_project_noop d (by rw [hFp]; exact hB1)
  have h2u : create_admin_user (create_default_roles s3) d p
      = (u, create_default_roles s3) :=
    create_admin_user_noop d p (by rw [hFu]; exact hC1)
  calc bootstrap_keystone (bootstrap_keystone s)
      = bootstrap_keystone (create_default_roles s3) := by rw [hboot]
    _ = create_default_roles (create_default_roles s3) := by
          simp only [bootstrap_keystone, h2d, h2p, h2u]
    _ = create_default_roles s3 := create_default_roles_idem s3
    _ = bootstrap_keystone s := hboot.symm

end Mopenstack
